import Mathlib

/-! Verification of the slingshot-web client-side state synchronization layer.

The definitions below are a shallow embedding of the state-update logic in
`src/components/Dashboard.jsx` and of the HTTP client layer in
`src/services/api.js` / `src/services/apiAuth.js`.  React `useState` setters
are modelled as pure functions from the previous state (and the event or REST
result being processed) to the next state; JavaScript truthiness on strings
and numbers is modelled explicitly; `JSON.stringify` equality of normalized
values is modelled as structural (decidable) equality; numeric payload fields
are carried as `Int` stand-ins since the code only stores and compares them.
-/

namespace Slingshot

/-- JavaScript truthiness of an optional numeric field: `undefined`, `null`
and `0` are falsy. -/
def truthyNum (v : Option Int) : Bool :=
  match v with
  | none => false
  | some n => n != 0

/-- JavaScript truthiness of an optional string field: `undefined`, `null`
and the empty string are falsy. -/
def truthyStr (v : Option String) : Bool :=
  match v with
  | none => false
  | some s => s != ""

/-- JavaScript `a || b` where `a` is an optional string field and `b` a
string: returns `a` when it is truthy, otherwise `b`. -/
def jsOrStr (a : Option String) (b : String) : String :=
  match a with
  | some s => if s = "" then b else s
  | none => b

/-- JavaScript `a || b` on two plain strings (the empty string is falsy). -/
def jsOrStrD (a b : String) : String :=
  if a = "" then b else a

/-! ## Quotes (`handleMarketData`, Dashboard.jsx lines 376-405) -/

/-- Payload of a `market_data` push event. -/
structure MarketDataEvent where
  symbol : String
  baseSymbol : Option String := none
  open_ : Option Int := none
  high : Option Int := none
  low : Option Int := none
  close : Option Int := none
  previousClose : Option Int := none
  volume : Option Int := none
  timestamp : Option String := none
deriving DecidableEq, Repr

/-- A stored quote, as built by `handleMarketData`. -/
structure Quote where
  symbol : String
  baseSymbol : Option String := none
  open_ : Option Int := none
  high : Option Int := none
  low : Option Int := none
  close : Option Int := none
  previousClose : Option Int := none
  volume : Option Int := none
  timestamp : Option String := none
deriving DecidableEq, Repr

/-- The `newQuote` object constructed from a `market_data` event. -/
def mkQuote (d : MarketDataEvent) : Quote :=
  { symbol := d.symbol
    baseSymbol := d.baseSymbol
    open_ := d.open_
    high := d.high
    low := d.low
    close := d.close
    previousClose := d.previousClose
    volume := d.volume
    timestamp := d.timestamp }

/-- The quotes state: a JavaScript object keyed by symbol string. -/
def QuotesState : Type := String → Option Quote

/-- Setting one key of a JavaScript object (`{ ...prev, [k]: v }`). -/
def objSet (m : QuotesState) (k : String) (v : Quote) : QuotesState :=
  fun x => if x = k then some v else m x

/-- Handler `handleMarketData`: builds `newQuote`, stores it under the full symbol,
and, when `data.baseSymbol` is truthy, also under the base symbol, in a
single state update. -/
def handleMarketData (prev : QuotesState) (d : MarketDataEvent) : QuotesState :=
  let newQuote := mkQuote d
  let updates := objSet prev d.symbol newQuote
  match d.baseSymbol with
  | some b => if b = "" then updates else objSet updates b newQuote
  | none => updates

/-! ## Backend client error handling
(`apiClient.interceptors.response`, api.js / apiAuth.js lines 41-65) -/

/-- The part of an axios error response the interceptor reads:
`error.response.status` and `error.response.data.error`. -/
structure AxiosResponseInfo where
  status : Nat
  dataError : Option String := none
deriving DecidableEq, Repr

/-- A transport-level (axios) error as seen by the response interceptor:
`error.message` plus an optional `error.response`. -/
structure AxiosError where
  message : String
  response : Option AxiosResponseInfo := none
deriving DecidableEq, Repr

/-- The error object a caller of the api client receives in its `catch`.
The interceptor rejects either `new Error('Authentication required')` or a
normalized `userError` carrying `status` and `originalError`; neither of
those carries a `response` field, so `response` stays `none` on everything
the interceptor produces. -/
structure JsError where
  message : String
  status : Option Nat := none
  response : Option AxiosResponseInfo := none
  originalError : Option AxiosError := none
deriving DecidableEq, Repr

/-- Computes `errorMessage`, i.e. the backend error text when truthy, else the transport message when truthy, else the literal network-error fallback. -/
def errorMessageOf (e : AxiosError) : String :=
  jsOrStr (e.response.bind AxiosResponseInfo.dataError) (jsOrStrD e.message "Network error")

/-- The response interceptor's error branch: given the stored token and the
axios error, returns the token state afterwards (the 401 branch removes it)
and the error the call rejects with. -/
def interceptResponseError (token : Option String) (e : AxiosError) :
    Option String × JsError :=
  if e.response.map AxiosResponseInfo.status = some 401 then
    (none, { message := "Authentication required" })
  else
    (token,
      { message := errorMessageOf e
        status := e.response.map AxiosResponseInfo.status
        originalError := some e })

/-! ## Orders (`loadOrdersAndPositions` snapshot path, Dashboard.jsx lines
827-840, and the `account_data_updated` push path, lines 534-541) -/

/-- An order as held in the `orders` state.  `limitPrice` and `orderType`
are the enrichment fields: the plain REST snapshot never populates them. -/
structure Order where
  id : String
  accountId : String := ""
  symbol : String := ""
  action : String := ""
  quantity : Int := 0
  price : Option Int := none
  status : String := ""
  limitPrice : Option Int := none
  orderType : Option String := none
deriving DecidableEq, Repr

/-- JavaScript truthiness of the conjunction of the two enrichment fields of an order. -/
def Order.isEnriched (o : Order) : Bool :=
  truthyNum o.limitPrice && truthyStr o.orderType

/-- The snapshot guard: the held list is nonempty and some held order is enriched. -/
def hasEnrichedOrders (prevOrders : List Order) : Bool :=
  decide (0 < prevOrders.length) && prevOrders.any Order.isEnriched

/-- The `setOrders` updater run on a fulfilled REST snapshot inside
`loadOrdersAndPositions`: keep the previous orders when they contain
enrichment, otherwise take the API data. -/
def loadOrdersSnapshot (prevOrders apiOrders : List Order) : List Order :=
  if hasEnrichedOrders prevOrders then prevOrders else apiOrders

/-- The orders branch of `handleAccountDataUpdated`:
`setOrders(data.data || [])` — a wholesale replacement. -/
def accountDataOrdersUpdate (payload : Option (List Order)) : List Order :=
  payload.getD []

/-- An event touching the orders state: a REST snapshot refresh or an
`account_data_updated` push carrying `dataType: 'orders'`. -/
inductive OrdersEvent where
  | snapshot (apiOrders : List Order)
  | push (payload : Option (List Order))
deriving DecidableEq, Repr

/-- Processing one orders event against the current orders state. -/
def applyOrdersEvent (prev : List Order) : OrdersEvent → List Order
  | .push payload => accountDataOrdersUpdate payload
  | .snapshot apiOrders => loadOrdersSnapshot prev apiOrders

/-- Processing a sequence of orders events in arrival order. -/
def applyOrdersEvents (start : List Order) (evs : List OrdersEvent) : List Order :=
  evs.foldl applyOrdersEvent start

/-- Whether an event is a push whose payload contains an enriched order. -/
def OrdersEvent.carriesEnrichment : OrdersEvent → Bool
  | .push payload => (payload.getD []).any Order.isEnriched
  | .snapshot _ => false

/-- Concrete order `A1` as a push event would deliver it, with the
enrichment fields populated. -/
def enrichedOrderA1 : Order :=
  { id := "A1", symbol := "MNQ", status := "Working"
    limitPrice := some 20000, orderType := some "Limit" }

/-- Concrete order `A1` as the plain snapshot delivers it, without the
enrichment fields. -/
def plainOrderA1 : Order :=
  { id := "A1", symbol := "MNQ", status := "Working" }

/-- An event sequence on order `A1`: an enriched push, then a push without
enrichment, then a final snapshot refresh. -/
def ordersCounterSeq : List OrdersEvent :=
  [.push (some [enrichedOrderA1]), .push (some [plainOrderA1]),
   .snapshot [plainOrderA1]]

/-! ## Kill switch (`api.setKillSwitch`, api.js lines 365-378;
`handleKillSwitchToggle`, Dashboard.jsx lines 135-164;
`handleKillSwitchChanged`, Dashboard.jsx lines 492-501) -/

/-- Body of a successful `POST /api/trading/enable|disable` response.  The
`enabled` field models any backend-reported actual state in the body; the
client never reads it. -/
structure PostStatusResponse where
  status : String
  enabled : Option Bool := none
deriving DecidableEq, Repr

/-- The object `setKillSwitch` resolves with. -/
structure KillSwitchResult where
  tradingEnabled : Bool
  status : String
  message : String
deriving DecidableEq, Repr

/-- Function `api.setKillSwitch(enabled)`: posts to the enable/disable endpoint and,
on success, resolves with `tradingEnabled: enabled` — the echoed request
value, not anything read from the response body. -/
def setKillSwitch (enabled : Bool) (resp : Except JsError PostStatusResponse) :
    Except String KillSwitchResult :=
  match resp with
  | .ok r => .ok { tradingEnabled := enabled, status := r.status, message := r.status }
  | .error e =>
      .error ("Failed to " ++ (if enabled then "enable" else "disable")
        ++ " trading: " ++ e.message)

/-- One write to the `tradingEnabled` flag: either the continuation of
`handleKillSwitchToggle` processing the command response (which stores
`response.tradingEnabled`), or `handleKillSwitchChanged` processing a
`kill_switch_changed` push (which stores `data.enabled`). -/
inductive KillSwitchUpdate where
  | commandResponse (tradingEnabled : Bool)
  | pushEvent (enabled : Bool)
deriving DecidableEq, Repr

/-- Applying one kill-switch write to the flag. -/
def applyKillSwitchUpdate (_flag : Bool) : KillSwitchUpdate → Bool
  | .commandResponse v => v
  | .pushEvent v => v

/-- Applying a sequence of kill-switch writes in processing order. -/
def applyKillSwitchUpdates (flag : Bool) (us : List KillSwitchUpdate) : Bool :=
  us.foldl applyKillSwitchUpdate flag

/-- The success path of `handleKillSwitchToggle`: requests `!tradingEnabled`
and stores the `tradingEnabled` field of whatever `setKillSwitch` resolved
with; on failure the flag is left unchanged. -/
def handleKillSwitchToggle (tradingEnabled : Bool)
    (resp : Except JsError PostStatusResponse) : Bool :=
  let newState := !tradingEnabled
  match setKillSwitch newState resp with
  | .ok r => r.tradingEnabled
  | .error _ => tradingEnabled

/-! ## Positions (`handleAccountDataUpdated` positions branch, Dashboard.jsx
lines 532-533; `loadOrdersAndPositions` positions path, lines 821-825) -/

/-- A position as held in the `positions` state. -/
structure Position where
  id : String
  symbol : String
  quantity : Int := 0
  entryPrice : Option Int := none
  currentPrice : Option Int := none
  unrealizedPnL : Option Int := none
  realizedPnL : Option Int := none
  stopLoss : Option Int := none
  targetPrice : Option Int := none
  trailingStop : Option Int := none
deriving DecidableEq, Repr

/-- The positions branch of `handleAccountDataUpdated`: when
`data.accountId === account?.id`, `setPositions(data.data || [])` — a
wholesale replacement of the list; events for other accounts leave the
state unchanged. -/
def handlePositionsPush (currentAccountId : Option String) (prev : List Position)
    (eventAccountId : String) (payload : Option (List Position)) : List Position :=
  if some eventAccountId = currentAccountId then payload.getD [] else prev

/-- Concrete held position: entry price and stop metadata present. -/
def heldPositionP1 : Position :=
  { id := "P1", symbol := "MNQ", quantity := 2
    entryPrice := some 20000, stopLoss := some 19950 }

/-- Concrete pushed position: same id and symbol, but the event does not
carry `entryPrice` or `stopLoss`. -/
def pushedPositionP1 : Position :=
  { id := "P1", symbol := "MNQ", quantity := 2, currentPrice := some 20010 }

/-! ## Account summary and snapshot loaders (`loadAccountSummary`,
Dashboard.jsx lines 781-812; `loadOrdersAndPositions`, lines 814-848) -/

/-- The account summary as held in the `accountSummary` state. -/
structure AccountSummary where
  accountId : String := ""
  balance : Int := 0
  equity : Int := 0
  margin : Int := 0
  availableFunds : Int := 0
  dayPnL : Int := 0
  dayPnLPercent : Int := 0
  totalPositions : Nat := 0
  longPositions : Nat := 0
  shortPositions : Nat := 0
  workingOrders : Nat := 0
  tradesExecutedToday : Nat := 0
  cached : Bool := false
  dataAge : Option Int := none
  empty : Bool := false
  loading : Bool := false
deriving DecidableEq, Repr

/-- The zeroed placeholder `loadAccountSummary` builds in its 503 branch. -/
def placeholderSummary (accountId : String) : AccountSummary :=
  { accountId := accountId, balance := 0, equity := 0, margin := 0
    availableFunds := 0, dayPnL := 0, dayPnLPercent := 0
    totalPositions := 0, longPositions := 0, shortPositions := 0
    workingOrders := 0, tradesExecutedToday := 0
    cached := false, empty := true, loading := true }

/-- Body of a successful `GET /api/accounts/{id}` as `loadAccountSummary`
reads it (`response.summary`). -/
structure AccountSummaryResponse where
  summary : AccountSummary
deriving DecidableEq, Repr

/-- Loader `loadAccountSummary`: stores `response.summary` on success; on failure
checks `error.response?.status === 503` and, when that holds, stores the
placeholder, otherwise leaves the previous summary in place. -/
def loadAccountSummary (prev : Option AccountSummary) (accountId : String)
    (r : Except JsError AccountSummaryResponse) : Option AccountSummary :=
  match r with
  | .ok resp => some resp.summary
  | .error e =>
      if e.response.map AxiosResponseInfo.status = some 503
      then some (placeholderSummary accountId)
      else prev

/-- Body of a successful `GET /api/positions?accountId=` as
`loadOrdersAndPositions` reads it (`response.value.positions || []`). -/
structure PositionsResponse where
  positions : Option (List Position) := none
deriving DecidableEq, Repr

/-- Loader `loadOrdersAndPositions`: the two REST calls settle independently; a
fulfilled positions call replaces the positions list, a fulfilled orders
call goes through the enrichment guard, and a rejected call leaves the
corresponding state unchanged. -/
def loadOrdersAndPositions (prevPositions : List Position) (prevOrders : List Order)
    (positionsResponse : Except JsError PositionsResponse)
    (ordersResponse : Except JsError (List Order)) : List Position × List Order :=
  (match positionsResponse with
    | .ok r => r.positions.getD []
    | .error _ => prevPositions,
   match ordersResponse with
    | .ok apiOrders => loadOrdersSnapshot prevOrders apiOrders
    | .error _ => prevOrders)

/-! ## Critical status (`api.getCriticalStatus`, api.js lines 142-178;
`loadCriticalStatus`, Dashboard.jsx lines 710-736;
`handleCriticalStatusUpdate`, Dashboard.jsx lines 410-421) -/

/-- One entry of the `GET /api/services` response. -/
structure ServiceInfo where
  name : String
  status : String
  port : Option Nat := none
  error : Option String := none
  lastChecked : Option String := none
deriving DecidableEq, Repr

/-- Body of `GET /api/trading/active-status` as `getCriticalStatus` reads it. -/
structure TradingStatus where
  positions : Option (List Position) := none
  pendingEntryOrders : Option (List Order) := none
  stopOrders : Option (List Order) := none
  targetOrders : Option (List Order) := none
  lastUpdate : Option String := none
  tradingEnabled : Option Bool := none
  stats : Option String := none
deriving DecidableEq, Repr

/-- The consolidated critical-status value. -/
structure CriticalStatus where
  status : String
  issues : List String
  openPositions : List Position
  openOrders : List Order
  lastUpdate : String
  services : Option (List ServiceInfo) := none
  tradingEnabled : Option Bool := none
  stats : Option String := none
deriving DecidableEq, Repr

/-- Function `api.getCriticalStatus`: combines the trading status and services
responses; when either underlying call fails, its catch RESOLVES with an
error-shaped object (status `error`, empty positions and orders) instead of
rejecting.  `now` stands for `new Date().toISOString()`. -/
def getCriticalStatus (tradingStatus : Except JsError TradingStatus)
    (services : Except JsError (List ServiceInfo)) (now : String) : CriticalStatus :=
  match tradingStatus, services with
  | .ok t, .ok svs =>
      let downServices := svs.filter (fun s => s.status != "running")
      { status := if downServices.length = 0 then "healthy" else "critical"
        issues := downServices.map (fun s => s.name ++ " is " ++ s.status)
        openPositions := t.positions.getD []
        openOrders := (t.pendingEntryOrders.getD []) ++ (t.stopOrders.getD [])
          ++ (t.targetOrders.getD [])
        lastUpdate := jsOrStr t.lastUpdate now
        services := some svs
        tradingEnabled := t.tradingEnabled
        stats := t.stats }
  | _, _ =>
      { status := "error"
        issues := ["Failed to load trading data"]
        openPositions := []
        openOrders := []
        lastUpdate := now }

/-- The `setCriticalStatus` updater inside `loadCriticalStatus`: first value
is stored as-is; afterwards a new response replaces the stored one only when
their serialized forms differ (`JSON.stringify` equality of normalized
values is modelled as structural equality). -/
def criticalStatusRefreshUpdater (response : CriticalStatus)
    (prev : Option CriticalStatus) : Option CriticalStatus :=
  match prev with
  | none => some response
  | some p => if response = p then prev else some response

/-- The `setCriticalStatus` updater inside `handleCriticalStatusUpdate`
(the `critical_status_update` push handler): stores the pushed data unless
its serialized form matches the stored value, in which case the previous
object is returned unchanged. -/
def handleCriticalStatusUpdate (data : CriticalStatus)
    (prev : Option CriticalStatus) : Option CriticalStatus :=
  if (some data : Option CriticalStatus) = prev then prev else some data

/-- A functional model of the React state cell holding the critical status:
applying an updater bumps the re-render notification count only when the
updater returns a value different from the currently held one (React bails
out of the update when the updater returns the previous state). -/
structure CriticalStatusCell where
  value : Option CriticalStatus
  notifications : Nat
deriving DecidableEq, Repr

/-- Running one `setCriticalStatus(updater)` call against the cell. -/
def CriticalStatusCell.setWith (st : CriticalStatusCell)
    (f : Option CriticalStatus → Option CriticalStatus) : CriticalStatusCell :=
  let v := f st.value
  if v = st.value then st
  else { value := v, notifications := st.notifications + 1 }

/-- Loader `loadCriticalStatus`: fetches via `api.getCriticalStatus` (which never
rejects) and feeds the response through the refresh updater. -/
def loadCriticalStatus (st : CriticalStatusCell)
    (tradingStatus : Except JsError TradingStatus)
    (services : Except JsError (List ServiceInfo)) (now : String) : CriticalStatusCell :=
  st.setWith (criticalStatusRefreshUpdater (getCriticalStatus tradingStatus services now))

/-- A concrete healthy critical status with one open position. -/
def healthyCriticalStatus : CriticalStatus :=
  { status := "healthy", issues := []
    openPositions := [heldPositionP1], openOrders := []
    lastUpdate := "2026-01-01T00:00:00Z"
    services := some [{ name := "monitoring-service", status := "running" }]
    tradingEnabled := some true }

/-- A concrete transport failure as normalized by the api client. -/
def networkJsError : JsError := { message := "timeout of 10000ms exceeded" }

/-! ## Activity log (`setRelayLogs` writers across Dashboard.jsx; the list
operations are generic in the entry type) -/

/-- The append log write, which spreads the previous entries, appends the new entry at the end, and keeps the first 100 elements.  This is the
pattern used by the kill-switch, kill-switch-changed, webhook-blocked,
data-collector, polling-mode and rate-limit log writes. -/
def appendLogCapped {α : Type} (prev : List α) (entry : α) : List α :=
  (prev ++ [entry]).take 100

/-- The relay-output log write: keep the last 49 previous entries and append the new entry.  Used by the relay-output,
webhook-received and webhook-error pattern. -/
def appendRelayOutput {α : Type} (prev : List α) (entry : α) : List α :=
  prev.drop (prev.length - 49) ++ [entry]

/-- The backlog merge run on `initial_activity`: prepend the formatted backlog to the previous entries and keep the first 100 elements. -/
def mergeInitialActivity {α : Type} (formattedLogs prev : List α) : List α :=
  (formattedLogs ++ prev).take 100

/-- The `filtered_activity` write: replace the log with the first 100 formatted entries. -/
def replaceFilteredActivity {α : Type} (formattedLogs : List α) : List α :=
  formattedLogs.take 100

/-- The `initial_state` replay write: replace the log with the last 100 formatted entries. -/
def replaceInitialStateActivity {α : Type} (formattedLogs : List α) : List α :=
  formattedLogs.drop (formattedLogs.length - 100)

/-- The margin-settings log write inside `handleMarginUpdate`: the updater ignores the previous entries and builds a fresh one-element array, truncated (vacuously) to 100. -/
def marginLogReset {α : Type} (entry : α) : List α :=
  ([entry]).take 100

/-- One write to the relay/activity log state. -/
inductive LogOp (α : Type) where
  | append (entry : α)
  | relayOutput (entry : α)
  | initialActivity (formattedLogs : List α)
  | filteredActivity (formattedLogs : List α)
  | initialStateActivity (formattedLogs : List α)
  | marginReset (entry : α)
deriving DecidableEq, Repr

/-- Applying one log write to the current log state. -/
def applyLogOp {α : Type} (prev : List α) : LogOp α → List α
  | .append e => appendLogCapped prev e
  | .relayOutput e => appendRelayOutput prev e
  | .initialActivity ls => mergeInitialActivity ls prev
  | .filteredActivity ls => replaceFilteredActivity ls
  | .initialStateActivity ls => replaceInitialStateActivity ls
  | .marginReset e => marginLogReset e

/-- A log already holding 100 entries (indices 0..99, oldest first). -/
def fullLog100 : List Nat := List.range 100

/-! ## Margin settings log write (`handleMarginUpdate`, Dashboard.jsx lines
230-250) -/

/-- One entry of the relay/activity log as Dashboard builds it. -/
structure ActivityEntry where
  timestamp : String := ""
  type : String := ""
  data : String := ""
deriving DecidableEq, Repr

/-- The margin-settings activity entry written by `handleMarginUpdate`. -/
def marginSettingsEntry (now : String) : ActivityEntry :=
  { timestamp := now, type := "margin_settings"
    data := "💰 Margin requirements updated" }

/-- Body of a successful `setMarginSettings` call as `handleMarginUpdate`
reads it (`response.marginSettings`, kept opaque here). -/
structure MarginSettingsResponse where
  marginSettings : Option String := none
deriving DecidableEq, Repr

/-- The effect of `handleMarginUpdate` on the relay log: on success the
updater replaces the log with the single fresh margin entry; on failure the
log is unchanged. -/
def handleMarginUpdateLogs (prevLogs : List ActivityEntry)
    (resp : Except JsError MarginSettingsResponse) (now : String) : List ActivityEntry :=
  match resp with
  | .ok _ => marginLogReset (marginSettingsEntry now)
  | .error _ => prevLogs

/-- A concrete axios error carrying a 401 response. -/
def axiosError401 : AxiosError :=
  { message := "Request failed with status code 401"
    response := some { status := 401 } }

/-- A concrete axios error carrying a 500 response with backend error text. -/
def axiosError500 : AxiosError :=
  { message := "Request failed with status code 500"
    response := some { status := 500, dataError := some "no account found" } }

/-- A concrete `market_data` event carrying both a contract symbol and its
base-symbol alias (close price carried in hundredths). -/
def mnqMarketData : MarketDataEvent :=
  { symbol := "MNQNov25", baseSymbol := some "MNQ", close := some 2000025 }

end Slingshot

namespace Slingshot

/-- Claim C3 theorem. -/
theorem marketData_dual_key_consistent (prev : QuotesState) (d : MarketDataEvent)
    (b : String) (hb : d.baseSymbol = some b) (hb' : b ≠ "") :
    handleMarketData prev d d.symbol = some (mkQuote d) ∧
    handleMarketData prev d b = some (mkQuote d) ∧
    handleMarketData prev d d.symbol = handleMarketData prev d b := by
  unfold handleMarketData
  rw [hb]
  simp only [if_neg hb']
  refine ⟨?_, ?_, ?_⟩ <;> unfold objSet <;> by_cases h : d.symbol = b <;> simp [h]

/-- Witness for claim C3 at the concrete event carrying both keys, against
the empty quotes state. -/
theorem marketData_dual_key_consistent_witness :
    handleMarketData (fun _ => none) mnqMarketData mnqMarketData.symbol
      = some (mkQuote mnqMarketData) ∧
    handleMarketData (fun _ => none) mnqMarketData "MNQ"
      = some (mkQuote mnqMarketData) ∧
    handleMarketData (fun _ => none) mnqMarketData mnqMarketData.symbol
      = handleMarketData (fun _ => none) mnqMarketData "MNQ" :=
  marketData_dual_key_consistent (fun _ => none) mnqMarketData "MNQ" rfl (by decide)

/-- Helper: a list containing an enriched order passes the
`hasEnrichedOrders` guard. -/
theorem hasEnrichedOrders_of_any {payload : List Order}
    (h : payload.any Order.isEnriched = true) :
    hasEnrichedOrders payload = true := by
  unfold hasEnrichedOrders
  cases payload with
  | nil => simp at h
  | cons a as => simp [h]

/-- Helper: once the held orders contain enrichment, any run of snapshot
refreshes leaves them unchanged. -/
theorem snapshots_keep_enriched {payload : List Order}
    (h : payload.any Order.isEnriched = true) (snaps : List (List Order)) :
    List.foldl applyOrdersEvent payload (snaps.map OrdersEvent.snapshot) = payload := by
  induction snaps with
  | nil => rfl
  | cons s ss ih =>
      simp only [List.map_cons, List.foldl_cons]
      have hs : applyOrdersEvent payload (OrdersEvent.snapshot s) = payload := by
        show loadOrdersSnapshot payload s = payload
        unfold loadOrdersSnapshot
        rw [hasEnrichedOrders_of_any h]
        simp
      rw [hs, ih]

/-- Claim C1 counterexample: in the sequence enriched-push, plain push,
snapshot, a push event carried the enrichment fields and a snapshot is the
last event processed, yet the final orders state contains no enrichment —
the intermediate plain push replaced the orders wholesale, so the snapshot
guard no longer fires. -/
theorem orders_enrichment_counterexample :
    ordersCounterSeq.any OrdersEvent.carriesEnrichment = true ∧
    ordersCounterSeq.getLast? = some (OrdersEvent.snapshot [plainOrderA1]) ∧
    applyOrdersEvents [] ordersCounterSeq = [plainOrderA1] ∧
    (applyOrdersEvents [] ordersCounterSeq).any Order.isEnriched = false := by
  decide

/-- Claim C1 (amended): if the MOST RECENT push event carried the enrichment
fields, the final orders state retains them even when snapshot refreshes are
the only events processed afterwards (every such snapshot is discarded by
the enrichment guard); a later push without enrichment, however, replaces
the orders wholesale. -/
theorem orders_enrichment_preserved (start : List Order) (pre : List OrdersEvent)
    (payload : List Order) (snaps : List (List Order))
    (h : payload.any Order.isEnriched = true) :
    applyOrdersEvents start
      (pre ++ OrdersEvent.push (some payload) :: snaps.map OrdersEvent.snapshot)
      = payload := by
  unfold applyOrdersEvents
  rw [List.foldl_append]
  simp only [List.foldl_cons]
  have hpush : applyOrdersEvent (List.foldl applyOrdersEvent start pre)
      (OrdersEvent.push (some payload)) = payload := rfl
  rw [hpush]
  exact snapshots_keep_enriched h snaps

/-- Witness for the amended claim C1 at a concrete enriched push followed by
a snapshot refresh. -/
theorem orders_enrichment_preserved_witness :
    applyOrdersEvents []
      ([] ++ OrdersEvent.push (some [enrichedOrderA1])
        :: ([[plainOrderA1]].map OrdersEvent.snapshot)) = [enrichedOrderA1] :=
  orders_enrichment_preserved [] [] [enrichedOrderA1] [[plainOrderA1]] (by decide)

/-- Claim C2 counterexample: the backend acknowledges a toggle from the
disabled state (requested `true`, body even reports `enabled: false`), the
`kill_switch_changed {enabled: false}` push is processed first, and the
command response is processed second — the final flag is `true`, not the
push value `false`. -/
theorem killSwitch_push_not_authoritative :
    handleKillSwitchToggle false
      (Except.ok { status := "ok", enabled := some false }) = true ∧
    applyKillSwitchUpdates false
      [KillSwitchUpdate.pushEvent false,
       KillSwitchUpdate.commandResponse true] ≠ false := by
  decide

/-- Claim C2 (amended): the trading-enabled flag ends up equal to the value
carried by whichever update is processed last — the push value wins exactly
when the push event is processed after the command response; when the
command response is processed last, its echoed value wins instead. -/
theorem killSwitch_last_write_wins (flag c p : Bool) :
    applyKillSwitchUpdates flag
      [KillSwitchUpdate.commandResponse c, KillSwitchUpdate.pushEvent p] = p ∧
    applyKillSwitchUpdates flag
      [KillSwitchUpdate.pushEvent p, KillSwitchUpdate.commandResponse c] = c :=
  ⟨rfl, rfl⟩

/-- Claim C9: a successful `setKillSwitch(enabled)` resolves with
`tradingEnabled` equal to the requested argument (echoed, not read from
the response body), so a successful toggle from `!enabled` leaves the
client flag at the requested value whatever the backend body reported. -/
theorem setKillSwitch_echoes_request (enabled : Bool)
    (resp : Except JsError PostStatusResponse) (r : KillSwitchResult)
    (h : setKillSwitch enabled resp = Except.ok r) :
    r.tradingEnabled = enabled ∧ handleKillSwitchToggle (!enabled) resp = enabled := by
  cases resp with
  | error e => exact absurd h (by simp [setKillSwitch])
  | ok pr =>
      simp only [setKillSwitch] at h
      have hr : r = { tradingEnabled := enabled, status := pr.status, message := pr.status } :=
        (Except.ok.inj h).symm
      subst hr
      exact ⟨rfl, by simp [handleKillSwitchToggle, setKillSwitch, Bool.not_not]⟩

/-- Witness for claim C9 at a concrete response whose body reports the
opposite state. -/
theorem setKillSwitch_echoes_request_witness :
    ({ tradingEnabled := true, status := "disabled", message := "disabled" }
      : KillSwitchResult).tradingEnabled = true ∧
    handleKillSwitchToggle (!true)
      (Except.ok { status := "disabled", enabled := some false }) = true :=
  setKillSwitch_echoes_request true
    (Except.ok { status := "disabled", enabled := some false }) _ rfl

/-- Claim C4 counterexample: a positions push for the selected account whose
payload references the held position `P1` by id and symbol but does not
carry its `entryPrice` and `stopLoss` replaces the record wholesale — both
fields are gone from the resulting state. -/
theorem positions_push_counterexample :
    handlePositionsPush (some "acct1") [heldPositionP1] "acct1"
      (some [pushedPositionP1]) = [pushedPositionP1] ∧
    pushedPositionP1.id = heldPositionP1.id ∧
    pushedPositionP1.symbol = heldPositionP1.symbol ∧
    heldPositionP1.entryPrice = some 20000 ∧
    heldPositionP1.stopLoss = some 19950 ∧
    pushedPositionP1.entryPrice = none ∧
    pushedPositionP1.stopLoss = none := by
  decide

/-- Claim C4 (amended): a positions push event for the selected account
replaces the whole positions list with the event payload; no field-by-field
merge with existing entries takes place, so fields of an existing entry the
event did not carry do not survive the update. -/
theorem positions_push_replaces_wholesale (currentAccountId : Option String)
    (prev : List Position) (eventAccountId : String)
    (payload : Option (List Position)) (h : some eventAccountId = currentAccountId) :
    handlePositionsPush currentAccountId prev eventAccountId payload = payload.getD [] := by
  simp [handlePositionsPush, h]

/-- Witness for the amended claim C4 at the concrete push for `P1`. -/
theorem positions_push_replaces_wholesale_witness :
    handlePositionsPush (some "acct1") [heldPositionP1] "acct1"
      (some [pushedPositionP1]) = [pushedPositionP1] :=
  positions_push_replaces_wholesale (some "acct1") [heldPositionP1] "acct1"
    (some [pushedPositionP1]) rfl

/-- Helper: every single log write leaves at most 100 entries. -/
theorem applyLogOp_length_le {α : Type} (prev : List α) (op : LogOp α) :
    (applyLogOp prev op).length ≤ 100 := by
  cases op <;>
    simp [applyLogOp, appendLogCapped, appendRelayOutput, mergeInitialActivity,
      replaceFilteredActivity, replaceInitialStateActivity, marginLogReset,
      List.length_take, List.length_drop, List.length_append] <;>
    omega

/-- Helper: the ≤ 100 bound is preserved across any sequence of log writes. -/
theorem foldl_logOps_length_le {α : Type} (ops : List (LogOp α)) (start : List α)
    (h : start.length ≤ 100) : (ops.foldl applyLogOp start).length ≤ 100 := by
  induction ops generalizing start with
  | nil => exact h
  | cons op ops ih => exact ih _ (applyLogOp_length_le start op)

/-- Claim C5 counterexample: with the log already holding 100 entries, the
append pattern `[...prev, entry].slice(0, 100)` keeps the FIRST 100 elements
— the 100 oldest — and drops the newly arrived entry `100`. -/
theorem activityLog_drop_counterexample :
    fullLog100.length = 100 ∧
    applyLogOp fullLog100 (LogOp.append 100) = fullLog100 ∧
    100 ∉ applyLogOp fullLog100 (LogOp.append 100) := by
  decide

/-- Claim C5 (amended): the main activity log never exceeds 100 entries
under any sequence of log writes starting from the empty log; but when an
append-style insertion hits the cap, it is the newly arrived entry that is
dropped — the list keeps its first 100 (oldest) elements unchanged. -/
theorem activityLog_cap_and_drop {α : Type} (ops : List (LogOp α))
    (prev : List α) (entry : α) (h : prev.length = 100) :
    (ops.foldl applyLogOp ([] : List α)).length ≤ 100 ∧
    applyLogOp prev (LogOp.append entry) = prev := by
  constructor
  · exact foldl_logOps_length_le ops [] (by simp)
  · show appendLogCapped prev entry = prev
    unfold appendLogCapped
    rw [← h]
    exact List.take_left prev [entry]

/-- Witness for the amended claim C5 at a concrete write sequence and a
concrete full log. -/
theorem activityLog_cap_and_drop_witness :
    (([LogOp.append 5, LogOp.relayOutput 6] : List (LogOp Nat)).foldl
      applyLogOp []).length ≤ 100 ∧
    applyLogOp fullLog100 (LogOp.append 100) = fullLog100 :=
  activityLog_cap_and_drop [LogOp.append 5, LogOp.relayOutput 6] fullLog100 100
    (by decide)

/-- Helper: the value held after a `setWith` call is whatever the updater
returned on the previous value. -/
theorem CriticalStatusCell.setWith_value (st : CriticalStatusCell)
    (f : Option CriticalStatus → Option CriticalStatus) :
    (st.setWith f).value = f st.value := by
  unfold CriticalStatusCell.setWith
  by_cases h : f st.value = st.value
  · simp [h]
  · simp [h]

/-- Helper: the refresh updater always stores the incoming response value
(either it replaces the previous value or the previous value already equals
it). -/
theorem criticalStatusRefreshUpdater_stores (response : CriticalStatus)
    (prev : Option CriticalStatus) :
    criticalStatusRefreshUpdater response prev = some response := by
  unfold criticalStatusRefreshUpdater
  cases prev with
  | none => rfl
  | some p =>
      by_cases h : response = p
      · simp [h]
      · simp [h]

/-- Helper: everything the response interceptor rejects with carries no
`response` field. -/
theorem interceptResponseError_response_none (token : Option String) (e : AxiosError) :
    (interceptResponseError token e).2.response = none := by
  unfold interceptResponseError
  split <;> rfl

/-- Claim C6 counterexample: with a healthy critical status (one open
position) held, a failed underlying REST call makes `loadCriticalStatus`
replace the stored value with the error placeholder — `api.getCriticalStatus`
converts the failure into a RESOLVED error-shaped object (status `error`,
empty positions and orders), so prior state is not left untouched. -/
theorem criticalStatus_failure_counterexample :
    (loadCriticalStatus
        { value := some healthyCriticalStatus, notifications := 0 }
        (.error networkJsError) (.ok [{ name := "monitoring-service", status := "running" }])
        "2026-01-01T00:01:00Z").value =
      some { status := "error", issues := ["Failed to load trading data"]
             openPositions := [], openOrders := []
             lastUpdate := "2026-01-01T00:01:00Z" } ∧
    (loadCriticalStatus
        { value := some healthyCriticalStatus, notifications := 0 }
        (.error networkJsError) (.ok [{ name := "monitoring-service", status := "running" }])
        "2026-01-01T00:01:00Z").value ≠ some healthyCriticalStatus := by
  decide

/-- Claim C6 (amended): on a failed REST call the account-summary, positions
and orders loaders leave the previously held state untouched (in particular
the 503 placeholder branch of `loadAccountSummary` is unreachable, because
errors normalized by the api client never carry a `response` field); the
critical-status loader, however, replaces the stored value with the
error-shaped placeholder that `api.getCriticalStatus` resolves with. -/
theorem snapshot_failure_behavior (prev : Option AccountSummary) (accountId : String)
    (token : Option String) (ax : AxiosError)
    (prevPositions : List Position) (prevOrders : List Order)
    (ep eo ec : JsError) (rp : Except JsError PositionsResponse)
    (ro : Except JsError (List Order))
    (st : CriticalStatusCell) (sv : Except JsError (List ServiceInfo)) (now : String) :
    loadAccountSummary prev accountId (.error (interceptResponseError token ax).2) = prev ∧
    (loadOrdersAndPositions prevPositions prevOrders (.error ep) ro).1 = prevPositions ∧
    (loadOrdersAndPositions prevPositions prevOrders rp (.error eo)).2 = prevOrders ∧
    (loadCriticalStatus st (.error ec) sv now).value =
      some { status := "error", issues := ["Failed to load trading data"]
             openPositions := [], openOrders := [], lastUpdate := now } := by
  refine ⟨?_, ?_, ?_, ?_⟩
  · have h := interceptResponseError_response_none token ax
    unfold loadAccountSummary
    simp [h]
  · cases ro <;> rfl
  · cases rp <;> rfl
  · show (CriticalStatusCell.setWith st
      (criticalStatusRefreshUpdater (getCriticalStatus (.error ec) sv now))).value =
      some { status := "error", issues := ["Failed to load trading data"]
             openPositions := [], openOrders := [], lastUpdate := now }
    have hplaceholder : getCriticalStatus (.error ec) sv now =
        { status := "error", issues := ["Failed to load trading data"]
          openPositions := [], openOrders := [], lastUpdate := now } := by
      cases sv <;> rfl
    rw [CriticalStatusCell.setWith_value, criticalStatusRefreshUpdater_stores,
      hplaceholder]

/-- Claim C7: on a 401 response the interceptor clears the stored credential
and rejects with exactly "Authentication required"; on any other error it
keeps the credential and rejects with a normalized error carrying the
message (backend-provided error text preferred over the transport message,
falling back to "Network error"), the HTTP status when present, and the
original error. -/
theorem interceptor_normalizes_errors (token : Option String) (e : AxiosError) :
    (e.response.map AxiosResponseInfo.status = some 401 →
      interceptResponseError token e = (none, { message := "Authentication required" })) ∧
    (e.response.map AxiosResponseInfo.status ≠ some 401 →
      interceptResponseError token e =
        (token,
          { message := errorMessageOf e
            status := e.response.map AxiosResponseInfo.status
            originalError := some e })) ∧
    (∀ s, e.response.bind AxiosResponseInfo.dataError = some s → s ≠ "" →
      errorMessageOf e = s) ∧
    (e.response.bind AxiosResponseInfo.dataError = none → e.message ≠ "" →
      errorMessageOf e = e.message) := by
  refine ⟨?_, ?_, ?_, ?_⟩
  · intro h
    simp [interceptResponseError, h]
  · intro h
    simp [interceptResponseError, h]
  · intro s hs hne
    simp [errorMessageOf, jsOrStr, hs, hne]
  · intro h hne
    simp [errorMessageOf, jsOrStr, jsOrStrD, h, hne]

/-- Witness for claim C7 at a concrete 401 error and a concrete 500 error
with backend-provided error text. -/
theorem interceptor_normalizes_errors_witness :
    interceptResponseError (some "tok") axiosError401 =
      (none, { message := "Authentication required" }) ∧
    interceptResponseError (some "tok") axiosError500 =
      (some "tok",
        { message := errorMessageOf axiosError500
          status := axiosError500.response.map AxiosResponseInfo.status
          originalError := some axiosError500 }) ∧
    errorMessageOf axiosError500 = "no account found" :=
  ⟨(interceptor_normalizes_errors (some "tok") axiosError401).1 (by decide),
   (interceptor_normalizes_errors (some "tok") axiosError500).2.1 (by decide),
   (interceptor_normalizes_errors (some "tok") axiosError500).2.2.1
     "no account found" (by decide) (by decide)⟩

/-- Claim C8: when the incoming critical-status value (push `data` or REST
`response`) has the same normalized serialized form as the stored value,
both updaters return the previous state object, so the state cell —
including its re-render notification count — is unchanged. -/
theorem criticalStatus_identical_noop (st : CriticalStatusCell) (data : CriticalStatus)
    (h : st.value = some data) :
    st.setWith (handleCriticalStatusUpdate data) = st ∧
    st.setWith (criticalStatusRefreshUpdater data) = st := by
  constructor
  · unfold CriticalStatusCell.setWith
    rw [h]
    simp [handleCriticalStatusUpdate]
  · unfold CriticalStatusCell.setWith
    rw [h]
    simp [criticalStatusRefreshUpdater]

/-- Witness for claim C8 at a concrete stored value and identical update. -/
theorem criticalStatus_identical_noop_witness :
    ({ value := some healthyCriticalStatus, notifications := 3 }
        : CriticalStatusCell).setWith (handleCriticalStatusUpdate healthyCriticalStatus) =
      { value := some healthyCriticalStatus, notifications := 3 } ∧
    ({ value := some healthyCriticalStatus, notifications := 3 }
        : CriticalStatusCell).setWith (criticalStatusRefreshUpdater healthyCriticalStatus) =
      { value := some healthyCriticalStatus, notifications := 3 } :=
  criticalStatus_identical_noop
    { value := some healthyCriticalStatus, notifications := 3 }
    healthyCriticalStatus rfl

/-- Claim C10: after a successful margin-settings update command the
activity log consists of exactly one entry, the fresh margin entry — every
entry held before the command is discarded, since the updater builds a new
one-element array instead of extending `prev`. -/
theorem marginUpdate_resets_log (prevLogs : List ActivityEntry)
    (resp : Except JsError MarginSettingsResponse) (r : MarginSettingsResponse)
    (now : String) (h : resp = Except.ok r) :
    handleMarginUpdateLogs prevLogs resp now = [marginSettingsEntry now] ∧
    (handleMarginUpdateLogs prevLogs resp now).length = 1 := by
  subst h
  exact ⟨rfl, rfl⟩

/-- Witness for claim C10 at a concrete prior log and timestamp. -/
theorem marginUpdate_resets_log_witness :
    handleMarginUpdateLogs [marginSettingsEntry "t0"] (Except.ok {}) "t1" =
      [marginSettingsEntry "t1"] ∧
    (handleMarginUpdateLogs [marginSettingsEntry "t0"] (Except.ok {}) "t1").length = 1 :=
  marginUpdate_resets_log [marginSettingsEntry "t0"] (Except.ok {}) {} "t1" rfl

end Slingshot
